import Mathlib

/-!
Shallow embedding of `src/frontend/src/Routes/PrivateRoute/Privateroute.jsx`
(the `PrivateRoute` component and the `Dashboard` component's
`fetchDashboardData` pipeline), together with theorems settling the
specification's claims about it.

Modelling conventions:
* A JS video record is a `Video`; fields that the code accesses with
  optional chaining or `|| 0` defaults are `Option`s.
* `upload_date` is modelled as the parsed timestamp (milliseconds since
  the epoch) of the date string: the code only ever uses the date through
  `new Date(d || 0)` subtraction, i.e. through its timestamp, with a
  missing date giving `new Date(0)` (the epoch, timestamp 0).
* JS `Array.prototype.sort` with a comparator `k(b) - k(a)` is a stable
  descending sort by the key `k` (stability guaranteed since ES2019);
  it is modelled by `List.insertionSort` with the relation
  `fun a b => k b ≤ k a`, which is likewise a stable descending sort.
* React state writes (`setStats`, `setError`, `setLoading`) are modelled
  as an explicit list of `Write`s folded over a `DashState`; the value of
  the `isMounted` flag at the moment the awaited fetch settles is a
  parameter (JS is single threaded, so the flag cannot change inside the
  synchronous continuation that follows the `await`).
-/

/-- Nested `uploader` object of a video record (`video.uploader?.email`). -/
structure Uploader where
  email : Option String
deriving DecidableEq

/-- A video record of the feed, with exactly the fields
`fetchDashboardData` reads.  `id` stands in for the remaining payload
(title, thumbnail, ...) so that distinct records stay distinguishable. -/
structure Video where
  id : Nat
  uploader_email : Option String
  uploader : Option Uploader
  views : Option Nat
  likes : Option Nat
  upload_date : Option Int
deriving DecidableEq

/-- `v.views || 0` of the source (lines 381, 386). -/
def viewsOf (v : Video) : Nat := v.views.getD 0

/-- `v.likes || 0` of the source (line 387). -/
def likesOf (v : Video) : Nat := v.likes.getD 0

/-- Timestamp of `new Date(v.upload_date || 0)` (line 378): a missing
date is the epoch. -/
def dateKey (v : Video) : Int := v.upload_date.getD 0

/-- JS `String.prototype.toLowerCase()`, modelled characterwise over the
string's characters. -/
def jsToLower (s : String) : String := ⟨s.data.map Char.toLower⟩

/-- The filter predicate of lines 366-371:
`video.uploader_email?.toLowerCase() === user.email.toLowerCase() ||
 video.uploader?.email?.toLowerCase() === user.email.toLowerCase()`.
A missing field makes its disjunct false (`undefined === string`). -/
def matchesUser (userEmail : String) (v : Video) : Bool :=
  (match v.uploader_email with
    | some e => jsToLower e == jsToLower userEmail
    | none => false)
  ||
  (match v.uploader with
    | some u =>
      match u.email with
      | some e => jsToLower e == jsToLower userEmail
      | none => false
    | none => false)

/-- Comparator relation of the recent-videos sort (line 377-379):
descending by date, `new Date(b.upload_date || 0) - new Date(a.upload_date || 0)`. -/
def dateGE (a b : Video) : Prop := dateKey b ≤ dateKey a

/-- Comparator relation of the popular-videos sort (line 380-382):
descending by views, `(b.views || 0) - (a.views || 0)`. -/
def viewsGE (a b : Video) : Prop := viewsOf b ≤ viewsOf a

instance : DecidableRel dateGE := fun a b =>
  inferInstanceAs (Decidable (dateKey b ≤ dateKey a))

instance : DecidableRel viewsGE := fun a b =>
  inferInstanceAs (Decidable (viewsOf b ≤ viewsOf a))

instance : IsTotal Video dateGE :=
  ⟨fun a b => (le_total (dateKey a) (dateKey b)).symm⟩

instance : IsTrans Video dateGE :=
  ⟨fun _ _ _ hab hbc => le_trans hbc hab⟩

instance : IsTotal Video viewsGE :=
  ⟨fun a b => (le_total (viewsOf a) (viewsOf b)).symm⟩

instance : IsTrans Video viewsGE :=
  ⟨fun _ _ _ hab hbc => le_trans hbc hab⟩

/-- `[...userVideos].sort((a, b) => new Date(b.upload_date || 0) - new Date(a.upload_date || 0))`
(lines 377-379): stable descending sort by date. -/
def sortByDateDesc (l : List Video) : List Video :=
  List.insertionSort dateGE l

/-- `[...userVideos].sort((a, b) => (b.views || 0) - (a.views || 0))`
(lines 380-382): stable descending sort by views. -/
def sortByViewsDesc (l : List Video) : List Video :=
  List.insertionSort viewsGE l

/-- The dashboard stats record (initial state lines 314-321, success
branch lines 384-391). -/
structure Stats where
  totalVideos : Nat
  totalViews : Nat
  totalLikes : Nat
  storageUsed : Nat
  recentVideos : List Video
  popularVideos : List Video
deriving DecidableEq

/-- The all-zero/empty stats value used as the initial state (lines
314-321) and written in the empty-list, non-array and error branches
(lines 357-360, 394-397, 407-410). -/
def defaultStats : Stats :=
  { totalVideos := 0, totalViews := 0, totalLikes := 0,
    storageUsed := 0, recentVideos := [], popularVideos := [] }

/-- Stats computed from a feed array for a user email: the filter of
lines 366-371 followed by the `userVideos.length > 0` branch of lines
376-398.  The sums are the `reduce` folds of lines 386-387. -/
def computeStats (userEmail : String) (feed : List Video) : Stats :=
  let userVideos := feed.filter (matchesUser userEmail)
  if userVideos.length > 0 then
    { totalVideos := userVideos.length
      totalViews := userVideos.foldl (fun sum v => sum + viewsOf v) 0
      totalLikes := userVideos.foldl (fun sum v => sum + likesOf v) 0
      storageUsed := 25
      recentVideos := (sortByDateDesc userVideos).take 3
      popularVideos := (sortByViewsDesc userVideos).take 2 }
  else
    defaultStats

/-- Outcome of the awaited `VideoService.getVideoFeed()` call:
it resolves with an array, resolves with a non-array value, or rejects
with an error whose `message` may be absent or empty. -/
inductive FeedResponse where
  | arr (feed : List Video)
  | nonArray
  | reject (message : Option String)
deriving DecidableEq

/-- The fallback of line 405: `fetchError.message || 'Failed to load...'`. -/
def fallbackMsg : String := "Failed to load video data. Please try again later."

/-- `fetchError.message || fallbackMsg` (line 405): JS `||` falls back
when `message` is absent or the empty string (both falsy). -/
def errorFromReject (message : Option String) : String :=
  match message with
  | some s => if s = "" then fallbackMsg else s
  | none => fallbackMsg

/-- The Dashboard component's React state touched by `fetchDashboardData`. -/
structure DashState where
  loading : Bool
  error : Option String
  stats : Stats
deriving DecidableEq

/-- Initial Dashboard state (lines 312-321). -/
def initialDashState : DashState :=
  { loading := true, error := none, stats := defaultStats }

/-- One React state write performed by `fetchDashboardData`. -/
inductive Write where
  | wLoading (b : Bool)
  | wError (e : Option String)
  | wStats (s : Stats)
deriving DecidableEq

/-- Apply a single state write. -/
def applyWrite (s : DashState) : Write → DashState
  | .wLoading b => { s with loading := b }
  | .wError e => { s with error := e }
  | .wStats st => { s with stats := st }

/-- The writes issued before the `await` (lines 336-337):
`setLoading(true); setError(null)`.  The component is necessarily still
mounted at this point. -/
def preAwaitWrites : List Write :=
  [.wLoading true, .wError none]

/-- The writes issued after the awaited fetch settles, as a function of
the `isMounted` flag at that moment (lines 349-417):
* array response: the `if (!isMounted) return;` guard (line 350), then
  `setStats` with the computed stats (lines 384-398), then the
  `finally` block's guarded `setLoading(false)` (lines 412-417);
* non-array response: the same guard, then `setStats(default)` and
  `setLoading(false)` and early return (lines 353-363), then the
  guarded `finally` runs `setLoading(false)` again;
* rejection: the `catch` block's `if (isMounted)` guard around
  `setError(...)` and `setStats(default)` (lines 400-411), then the
  guarded `finally`. -/
def postAwaitWrites (mounted : Bool) (userEmail : String) :
    FeedResponse → List Write
  | .arr feed =>
    if mounted then
      [.wStats (computeStats userEmail feed), .wLoading false]
    else []
  | .nonArray =>
    if mounted then
      [.wStats defaultStats, .wLoading false, .wLoading false]
    else []
  | .reject message =>
    if mounted then
      [.wError (some (errorFromReject message)), .wStats defaultStats,
       .wLoading false]
    else []

/-- A full run of `fetchDashboardData` from state `s`, where `mounted`
is the value of `isMounted` when the awaited fetch settles. -/
def fetchDashboardData (mounted : Bool) (userEmail : String)
    (resp : FeedResponse) (s : DashState) : DashState :=
  (preAwaitWrites ++ postAwaitWrites mounted userEmail resp).foldl applyWrite s

/-- Dismissing the error banner: `onDismiss={() => setError(null)}` (line 442). -/
def dismissError (s : DashState) : DashState := { s with error := none }

/-- What `PrivateRoute` renders (lines 19-31). -/
inductive RenderResult where
  | spinner
  | redirect (toRoute : String) (fromLocation : String) (replace : Bool)
  | children
deriving DecidableEq

/-- The render function of `PrivateRoute` (lines 7-32) as a function of
the auth context `{user, loading}`, the component's `authChecked` state
and the current location:
`if (loading && !authChecked) return spinner;
 if (!user) return <Navigate to="/login" state={{from: location}} replace />;
 return children;`. -/
def privateRouteRender (user : Option String) (loading authChecked : Bool)
    (location : String) : RenderResult :=
  if loading && !authChecked then .spinner
  else if user.isNone then .redirect "/login" location true
  else .children

/-- The `useEffect` of lines 13-17: once `loading` is false,
`authChecked` becomes (and stays) true. -/
def authCheckedAfterEffect (loading authChecked : Bool) : Bool :=
  if !loading then true else authChecked

/-- Auth has "settled" (glossary: the provider has resolved whether a
session exists) when `loading` is false or a previous non-loading render
already set `authChecked`. -/
def authSettled (loading authChecked : Bool) : Bool :=
  !loading || authChecked

/-! ## Helper lemmas -/

/-- A left fold accumulating `f v` equals the accumulator plus the sum of
the mapped list (the `reduce((sum, v) => sum + f(v), 0)` pattern). -/
theorem foldl_add_map (f : Video → Nat) :
    ∀ (l : List Video) (n : Nat),
      l.foldl (fun sum v => sum + f v) n = n + (l.map f).sum
  | [], n => by simp
  | v :: l, n => by
    simp [List.foldl_cons, foldl_add_map f l, Nat.add_assoc]

/-- A feed whose user filter has no elements yields `defaultStats`;
otherwise `computeStats` takes the `length > 0` branch. -/
theorem filter_length_zero_eq_nil (userEmail : String) (feed : List Video)
    (h : ¬ (feed.filter (matchesUser userEmail)).length > 0) :
    feed.filter (matchesUser userEmail) = [] :=
  List.length_eq_zero.mp (Nat.eq_zero_of_not_pos h)

/-! ## Claims -/

/-- C1: for every user email and feed, `totalViews` and `totalLikes` are
the sums of the (defaulted) `views` and `likes` fields over exactly the
records that pass the uploader-email filter (the case-insensitive match
of lines 366-371), and `totalVideos` is the number of such records. -/
theorem C1_totals_are_filtered_sums (userEmail : String) (feed : List Video) :
    (computeStats userEmail feed).totalViews
        = ((feed.filter (matchesUser userEmail)).map viewsOf).sum ∧
    (computeStats userEmail feed).totalLikes
        = ((feed.filter (matchesUser userEmail)).map likesOf).sum ∧
    (computeStats userEmail feed).totalVideos
        = (feed.filter (matchesUser userEmail)).length := by
  simp only [computeStats]
  split
  next h =>
    simp [foldl_add_map]
  next h =>
    simp [filter_length_zero_eq_nil userEmail feed h, defaultStats]

/-- C2: `recentVideos` is a prefix (the explicit decomposition
`recentVideos ++ rest = sorted`) of length at most 3 of the filtered
videos sorted descending by `upload_date`, where a missing date sorts as
the epoch (`dateKey` defaults to 0); the sorted list is a permutation of
the filtered videos and is sorted under the descending date order. -/
theorem C2_recentVideos_is_sorted_take (userEmail : String) (feed : List Video) :
    (sortByDateDesc (feed.filter (matchesUser userEmail))).Perm
        (feed.filter (matchesUser userEmail)) ∧
    (sortByDateDesc (feed.filter (matchesUser userEmail))).Sorted dateGE ∧
    (computeStats userEmail feed).recentVideos
        ++ (sortByDateDesc (feed.filter (matchesUser userEmail))).drop 3
        = sortByDateDesc (feed.filter (matchesUser userEmail)) ∧
    (computeStats userEmail feed).recentVideos.length ≤ 3 := by
  refine ⟨List.perm_insertionSort dateGE _,
          List.sorted_insertionSort dateGE _, ?_, ?_⟩
  · simp only [computeStats]
    split
    next h => exact List.take_append_drop 3 _
    next h =>
      simp [filter_length_zero_eq_nil userEmail feed h, defaultStats,
            sortByDateDesc]
  · simp only [computeStats]
    split
    next h => simp
    next h => simp [defaultStats]

/-- C3: `popularVideos` is a prefix of length at most 2 of the filtered
videos sorted descending by `views`, where missing `views` sorts as 0
(`viewsOf` defaults to 0); the sorted list is a permutation of the
filtered videos and is sorted under the descending views order. -/
theorem C3_popularVideos_is_sorted_take (userEmail : String) (feed : List Video) :
    (sortByViewsDesc (feed.filter (matchesUser userEmail))).Perm
        (feed.filter (matchesUser userEmail)) ∧
    (sortByViewsDesc (feed.filter (matchesUser userEmail))).Sorted viewsGE ∧
    (computeStats userEmail feed).popularVideos
        ++ (sortByViewsDesc (feed.filter (matchesUser userEmail))).drop 2
        = sortByViewsDesc (feed.filter (matchesUser userEmail)) ∧
    (computeStats userEmail feed).popularVideos.length ≤ 2 := by
  refine ⟨List.perm_insertionSort viewsGE _,
          List.sorted_insertionSort viewsGE _, ?_, ?_⟩
  · simp only [computeStats]
    split
    next h => exact List.take_append_drop 2 _
    next h =>
      simp [filter_length_zero_eq_nil userEmail feed h, defaultStats,
            sortByViewsDesc]
  · simp only [computeStats]
    split
    next h => simp
    next h => simp [defaultStats]

/-- C4: `PrivateRoute` renders the spinner iff it is loading and auth has
not yet settled; renders the `/login` redirect, carrying the originating
location and the `replace` flag, iff auth has settled (`loading` false or
`authChecked` already set) with no user; and renders its children in
exactly the remaining case (settled with a user). -/
theorem C4_privateRoute_render (user : Option String)
    (loading authChecked : Bool) (location : String) :
    (privateRouteRender user loading authChecked location = .spinner
        ↔ (loading = true ∧ authSettled loading authChecked = false)) ∧
    (privateRouteRender user loading authChecked location
          = .redirect "/login" location true
        ↔ (authSettled loading authChecked = true ∧ user = none)) ∧
    (privateRouteRender user loading authChecked location = .children
        ↔ (authSettled loading authChecked = true ∧ user.isSome = true)) := by
  cases user <;> cases loading <;> cases authChecked <;>
    simp [privateRouteRender, authSettled]

/-- C5: when `getVideoFeed` rejects and the component is still mounted,
the run leaves the all-zero/empty `defaultStats`, sets the error to the
rejection's message (or the fallback when the message is absent or
empty), clears `loading`, and dismissing then clears the error. -/
theorem C5_reject_resets_and_sets_error (userEmail : String)
    (message : Option String) (s : DashState) :
    (fetchDashboardData true userEmail (.reject message) s).stats
        = defaultStats ∧
    (fetchDashboardData true userEmail (.reject message) s).error
        = some (errorFromReject message) ∧
    (fetchDashboardData true userEmail (.reject message) s).loading = false ∧
    (dismissError (fetchDashboardData true userEmail (.reject message) s)).error
        = none :=
  ⟨rfl, rfl, rfl, rfl⟩

/-- C6: when `getVideoFeed` resolves with a non-array value and the
component is still mounted, the run leaves the all-zero/empty
`defaultStats` and the error stays `none` (the branch never calls
`setError` after the initial `setError(null)`). -/
theorem C6_nonArray_empty_stats_no_error (userEmail : String) (s : DashState) :
    (fetchDashboardData true userEmail .nonArray s).stats = defaultStats ∧
    (fetchDashboardData true userEmail .nonArray s).error = none ∧
    (fetchDashboardData true userEmail .nonArray s).loading = false :=
  ⟨rfl, rfl, rfl⟩

/-- A video of the feed whose uploader is the example user, used in
concrete evaluations. -/
def vMatch : Video :=
  { id := 1, uploader_email := some "a@x.com", uploader := none,
    views := some 5, likes := some 1, upload_date := some 0 }

/-- C7 counterexample: the claim says every fetch carries the same
`storageUsed` value regardless of feed contents and outcome, but a
successful fetch whose filter is non-empty writes `storageUsed = 25`
(line 388) while one whose filter is empty writes `storageUsed = 0`
(line 396): the two runs disagree. -/
theorem C7_counterexample_storageUsed_not_constant :
    ¬ ((fetchDashboardData true "a@x.com" (.arr [vMatch]) initialDashState).stats.storageUsed
        = (fetchDashboardData true "a@x.com" (.arr []) initialDashState).stats.storageUsed) := by
  decide

/-- C7 amended: `storageUsed` never derives from feed data; it is the
constant 25 whenever a successful fetch finds at least one matching
video, and 0 in every other outcome (no matching videos, non-array
response, rejection). -/
theorem C7_amended_storageUsed_placeholder (userEmail : String)
    (feed : List Video) (message : Option String) (s : DashState) :
    (fetchDashboardData true userEmail (.arr feed) s).stats.storageUsed
        = (if (feed.filter (matchesUser userEmail)).length > 0 then 25 else 0) ∧
    (fetchDashboardData true userEmail .nonArray s).stats.storageUsed = 0 ∧
    (fetchDashboardData true userEmail (.reject message) s).stats.storageUsed
        = 0 := by
  refine ⟨?_, rfl, rfl⟩
  show (computeStats userEmail feed).storageUsed = _
  simp only [computeStats]
  split
  next h => simp [h]
  next h => simp [h, defaultStats]

/-- C8: when the component unmounts before the fetch settles
(`isMounted` is false at the continuation), no state write at all is
issued after the awaited fetch, and the final state is exactly the state
left by the two pre-await writes (`loading := true`, `error := none`). -/
theorem C8_no_writes_after_unmount (userEmail : String) (resp : FeedResponse)
    (s : DashState) :
    postAwaitWrites false userEmail resp = [] ∧
    fetchDashboardData false userEmail resp s
        = { s with loading := true, error := none } := by
  cases resp <;> exact ⟨rfl, rfl⟩

/-- The January video of the spec's worked example
(`upload_date` 2024-01-01T00:00:00Z = 1704067200000 ms). -/
def videoJan : Video :=
  { id := 1, uploader_email := some "A@x.com", uploader := none,
    views := some 5, likes := some 1, upload_date := some 1704067200000 }

/-- The February video of the spec's worked example
(`upload_date` 2024-02-01T00:00:00Z = 1706745600000 ms). -/
def videoFeb : Video :=
  { id := 2, uploader_email := some "a@x.com", uploader := none,
    views := some 10, likes := some 2, upload_date := some 1706745600000 }

/-- C9: on the spec's worked example feed with user email `a@x.com`,
the computed stats are totalVideos 2, totalViews 15, totalLikes 3,
recentVideos with the February video before the January one, and
popularVideos with the February video (views 10) before the January one
(views 5). -/
theorem C9_worked_example :
    (computeStats "a@x.com" [videoJan, videoFeb]).totalVideos = 2 ∧
    (computeStats "a@x.com" [videoJan, videoFeb]).totalViews = 15 ∧
    (computeStats "a@x.com" [videoJan, videoFeb]).totalLikes = 3 ∧
    (computeStats "a@x.com" [videoJan, videoFeb]).recentVideos
        = [videoFeb, videoJan] ∧
    (computeStats "a@x.com" [videoJan, videoFeb]).popularVideos
        = [videoFeb, videoJan] := by
  decide

/-- C10: the uploader-email filter is a disjunction, not a prioritized
fallback: a record whose top-level `uploader_email` is present but does
not match still passes the filter (and is kept by the feed filter)
whenever its nested `uploader.email` matches case-insensitively. -/
theorem C10_filter_is_disjunction (userEmail topEmail nestedEmail : String)
    (v : Video) (feed : List Video)
    (h1 : v.uploader_email = some topEmail)
    (_h2 : jsToLower topEmail ≠ jsToLower userEmail)
    (h3 : v.uploader = some { email := some nestedEmail })
    (h4 : jsToLower nestedEmail = jsToLower userEmail)
    (h5 : v ∈ feed) :
    matchesUser userEmail v = true
      ∧ v ∈ feed.filter (matchesUser userEmail) := by
  have hm : matchesUser userEmail v = true := by
    simp [matchesUser, h1, h3, h4]
  exact ⟨hm, List.mem_filter.mpr ⟨h5, hm⟩⟩

/-- A record whose top-level uploader email mismatches the user but whose
nested uploader email matches case-insensitively. -/
def vNestedOnly : Video :=
  { id := 3, uploader_email := some "b@x.com",
    uploader := some { email := some "A@x.com" },
    views := some 7, likes := some 4, upload_date := some 0 }

/-- C10 witness: the disjunction theorem applied at a concrete record
with mismatching top-level email `b@x.com` and matching nested email
`A@x.com` for user `a@x.com`. -/
theorem C10_witness :
    matchesUser "a@x.com" vNestedOnly = true
      ∧ vNestedOnly ∈ [vNestedOnly].filter (matchesUser "a@x.com") :=
  C10_filter_is_disjunction "a@x.com" "b@x.com" "A@x.com" vNestedOnly
    [vNestedOnly] rfl (by decide) rfl (by decide) (by decide)
